import Mathlib

/-!
Verification of the AC Modbus communication core.

Shallow embedding of `custom_components/ac_modbus` (coordinator.py, hub.py,
services.py) and proofs about it.

Modelling conventions:
* Python `dict[int, int]` becomes an association list with Python-dict
  semantics (update in place on existing key, append on fresh key);
  `dictLookup` is key lookup.
* Await-able transport calls are modelled by explicit behaviour values
  (`ConnectBeh`, `ReadBeh`, ...): each possible outcome of a call
  (returns a value, Modbus error response, TimeoutError,
  ConnectionException, other exception) is a constructor, so theorems
  quantify over every transport behaviour.
* Python exceptions become `Except` results; a total Lean function models a
  Python function that returns normally on every modelled path.
* `datetime.now()` is an abstract tick `now : Nat` passed to each operation.
* `pymodbus` is assumed importable (`HAS_PYMODBUS = True`): the hub's guard
  branch for a missing library is environmental, not transport behaviour.
-/

namespace ACModbus

/-! ## Python dict model -/

/-- Python-dict insertion (`d[k] = v`): replace the first binding of `k`
in place, else append. From the uses of `dict[int, int]` in
coordinator.py / services.py. -/
def dictInsert : List (Nat × Nat) → Nat → Nat → List (Nat × Nat)
  | [], k, v => [(k, v)]
  | p :: rest, k, v =>
    if p.1 = k then (k, v) :: rest else p :: dictInsert rest k v

/-- Python-dict lookup (`d.get(k)`). -/
def dictLookup : List (Nat × Nat) → Nat → Option Nat
  | [], _ => none
  | p :: rest, k => if p.1 = k then some p.2 else dictLookup rest k

/-! ## Coordinator (coordinator.py, class ACModbusCoordinator)

The mutable attributes of `ACModbusCoordinator` that the refresh cycle
touches. The hub is factored out: the only hub facts this code path reads
are `hub.is_connected` and the outcome of each `hub.read_register(r)`
call, passed in as `connected : Bool` and `read : Nat → Except String Nat`
(the coordinator makes no other hub call in this path — it never calls
`hub.connect` or `hub.reconnect`). The second component of each result
below is the trace of registers on which `hub.read_register` was invoked,
in call order; an empty trace means no hub operation at all was performed,
in particular the lazy-connect path inside `read_register` was never
entered. -/

structure CoordState where
  data : List (Nat × Nat)
  available : Bool
  last_update_time : Option Nat
  consecutive_errors : Nat
  registers : List Nat
  deriving DecidableEq

/-- The `for register in self._registers` loop of `_async_update_data`:
read each register, building `new_data`; the first failing read re-raises
and aborts the loop. Returns the built dict (or the error) and the trace
of `read_register` calls made. -/
def readLoop (read : Nat → Except String Nat) :
    List Nat → List (Nat × Nat) → Except String (List (Nat × Nat)) × List Nat
  | [], acc => (.ok acc, [])
  | r :: rest, acc =>
    match read r with
    | .ok v =>
      let res := readLoop read rest (dictInsert acc r v)
      (res.1, r :: res.2)
    | .error e => (.error e, [r])

/-- Embeds `ACModbusCoordinator._async_update_data`: raise if the hub is
not connected, else read every tracked register into a fresh dict and
install it as the cache. On any error the state is returned unchanged (the
Python method assigns `self._data` only after the loop completes). -/
def async_update_data (st : CoordState) (connected : Bool)
    (read : Nat → Except String Nat) : Except String CoordState × List Nat :=
  if connected = false then (.error "Hub not connected", [])
  else
    let res := readLoop read st.registers []
    match res.1 with
    | .ok new_data => (.ok { st with data := new_data }, res.2)
    | .error e => (.error e, res.2)

/-- Embeds `ACModbusCoordinator.async_refresh`: run `_async_update_data`;
on success set `available`, zero `consecutive_errors` and stamp
`last_update_time`; on any exception set `available := false` and bump
`consecutive_errors`. The Python method never re-raises, which the
embedding reflects by being a total function. -/
def async_refresh (st : CoordState) (connected : Bool)
    (read : Nat → Except String Nat) (now : Nat) : CoordState × List Nat :=
  match async_update_data st connected read with
  | (.ok st', tr) =>
    ({ st' with available := true, consecutive_errors := 0,
                last_update_time := some now }, tr)
  | (.error _, tr) =>
    ({ st with available := false,
               consecutive_errors := st.consecutive_errors + 1 }, tr)

/-! ## Hub (hub.py, class ModbusHub) -/

/-- Mutable attributes of `ModbusHub`. `hasClient` models
`self._client is not None`; host/port/timeout are irrelevant to the
claims and omitted (they are read-only configuration). -/
structure HubState where
  unit_id : Nat
  reconnect_backoff : Nat
  hasClient : Bool
  connected : Bool
  connected_at : Option Nat
  last_error : Option String
  last_error_time : Option Nat
  last_success_time : Option Nat
  backoff_count : Nat
  deriving DecidableEq

/-- Embeds the `ModbusHub.is_connected` property: `False` when the client
is `None`, else the hub's own `_connected` flag. -/
def HubState.is_connected (st : HubState) : Bool :=
  if st.hasClient = false then false else st.connected

/-- Embeds `ModbusHub._record_error`. -/
def record_error (st : HubState) (msg : String) (now : Nat) : HubState :=
  { st with last_error := some msg, last_error_time := some now }

/-- Outcome of the transport-level `client.connect()` call (including any
exception raised anywhere in the `try` body of `ModbusHub.connect`):
it returns a boolean, times out, or raises. -/
inductive ConnectCallRes
  | returns (b : Bool)
  | timeout
  | raises (msg : String)
  deriving DecidableEq

/-- Outcome of the mandatory test read inside `ModbusHub.connect`:
a successful response, a Modbus error response (`result.isError()`),
or a raised exception. -/
inductive TestReadRes
  | ok
  | errorResponse
  | raises (msg : String)
  deriving DecidableEq

/-- Transport behaviour for one `connect()` call. -/
structure ConnectBeh where
  call : ConnectCallRes
  testRead : TestReadRes
  deriving DecidableEq

/-- Embeds `ModbusHub.connect` (with pymodbus available): close and
replace the client, connect with timeout, then the mandatory test read.
A `False` connect result, a timeout, or any raised exception marks
disconnected, bumps the backoff count, records the error and returns
`False`. A test read that raises does the same; a test read returning a
Modbus error response is only logged (warning) and the method continues
to the success path: connected, connection timestamp, backoff reset to 0,
return `True`. -/
def connect (st : HubState) (beh : ConnectBeh) (now : Nat) : Bool × HubState :=
  let st := { st with hasClient := true }
  match beh.call with
  | .timeout =>
    (false, record_error
      { st with connected := false, backoff_count := st.backoff_count + 1 }
      "Connection timeout" now)
  | .raises msg =>
    (false, record_error
      { st with connected := false, backoff_count := st.backoff_count + 1 }
      msg now)
  | .returns false =>
    (false, record_error
      { st with connected := false, backoff_count := st.backoff_count + 1 }
      "connect() returned False" now)
  | .returns true =>
    match beh.testRead with
    | .raises msg =>
      (false, record_error
        { st with connected := false, backoff_count := st.backoff_count + 1 }
        ("Test read failed: " ++ msg) now)
    | _ =>
      (true, { st with connected := true, connected_at := some now,
                       backoff_count := 0 })

/-- Embeds `ModbusHub.reconnect`: when the backoff count is positive,
sleep `min(reconnect_backoff * 2^(backoff_count - 1), 60)` seconds, else
no sleep at all; then delegate to `connect`. The first component is the
applied delay (`none` = no sleep). -/
def reconnect (st : HubState) (beh : ConnectBeh) (now : Nat) :
    Option Nat × (Bool × HubState) :=
  let delay : Option Nat :=
    if st.backoff_count > 0 then
      some (min (st.reconnect_backoff * 2 ^ (st.backoff_count - 1)) 60)
    else none
  (delay, connect st beh now)

/-- Embeds `ModbusHub._ensure_connected`: connect lazily when the client
is `None` or the connected flag is down, else succeed immediately. -/
def ensure_connected (st : HubState) (beh : ConnectBeh) (now : Nat) :
    Bool × HubState :=
  if st.hasClient = false || st.connected = false then connect st beh now
  else (true, st)

/-- Outcome of the transport call inside `ModbusHub.read_register`:
a value, a Modbus error response, a timeout, a `ConnectionException`,
or any other exception. -/
inductive ReadCallRes
  | ok (v : Nat)
  | errorResponse
  | timeout
  | connLost (msg : String)
  | raises (msg : String)
  deriving DecidableEq

/-- Transport behaviour for one `read_register` call, including the
connect behaviour used if the lazy-connect path is taken. -/
structure ReadBeh where
  connectBeh : ConnectBeh
  call : ReadCallRes
  deriving DecidableEq

/-- The exception classes raised by hub.py, one constructor per Python
class: `ModbusReadError`, `ModbusWriteError`, `asyncio.TimeoutError`, and
the `ValueError` raised on write verification mismatch (which carries the
address, written value, expected value and actual readback in its
message). `ModbusVerifyError` is declared in hub.py but never raised. -/
inductive HubError
  | readError (msg : String)
  | writeError (msg : String)
  | timeout
  | valueError (address value expected readback : Nat)
  deriving DecidableEq

/-- The message of the verification-mismatch `ValueError`
(hub.py, `write_register`). -/
def verifyMismatchMsg (address value expected readback : Nat) : String :=
  "Verification mismatch at address " ++ toString address ++ ": wrote " ++
    toString value ++ ", expected " ++ toString expected ++ ", got " ++
    toString readback

/-- Python `str(ex)` for each modelled exception
(`str(asyncio.TimeoutError())` is the empty string). -/
def errString : HubError → String
  | .readError msg => msg
  | .writeError msg => msg
  | .timeout => ""
  | .valueError a v e r => verifyMismatchMsg a v e r

/-- Embeds `ModbusHub.read_register`: ensure connected (lazy connect),
then issue the read. A Modbus error response raises `ModbusReadError`
(recorded); a timeout records, marks disconnected and re-raises; a
`ConnectionException` records, marks disconnected and raises
`ModbusReadError`; any other exception is recorded and wrapped in
`ModbusReadError`; success stamps `last_success_time` and returns the
value. -/
def read_register (st : HubState) (beh : ReadBeh) (address : Nat)
    (now : Nat) : Except HubError Nat × HubState :=
  let ec := ensure_connected st beh.connectBeh now
  if ec.1 = false then
    (.error (.readError "Not connected and reconnection failed"), ec.2)
  else
    let st := ec.2
    match beh.call with
    | .ok v => (.ok v, { st with last_success_time := some now })
    | .errorResponse =>
      let msg := "Read error at address " ++ toString address
      (.error (.readError msg), record_error st msg now)
    | .timeout =>
      (.error .timeout,
       { record_error st ("Read timeout at address " ++ toString address) now
         with connected := false })
    | .connLost msg =>
      (.error (.readError ("Connection lost: " ++ msg)),
       { record_error st ("Connection lost: " ++ msg) now
         with connected := false })
    | .raises msg =>
      (.error (.readError ("Read failed: " ++ msg)), record_error st msg now)

/-- Outcome of the transport call inside `ModbusHub.write_register`. -/
inductive WriteCallRes
  | ok
  | errorResponse
  | timeout
  | connLost (msg : String)
  | raises (msg : String)
  deriving DecidableEq

/-- Transport behaviour for one `write_register` call: the connect
behaviour for the lazy-connect path, the write call outcome, and the
behaviour of the internal verification readback. -/
structure WriteBeh where
  connectBeh : ConnectBeh
  call : WriteCallRes
  verifyRead : ReadBeh
  deriving DecidableEq

/-- Embeds `ModbusHub.write_register`: ensure connected, issue the write
(failure handling mirrors `read_register` with `ModbusWriteError`), and
when `verify` is set, read the register back via `read_register` and
compare with `expected` (defaulting to the written value); a mismatch is
recorded and raises the `ValueError` carrying address, written value,
expected value and readback. -/
def write_register (st : HubState) (beh : WriteBeh) (address value : Nat)
    (verify : Bool) (expected : Option Nat) (now : Nat) :
    Except HubError Bool × HubState :=
  let ec := ensure_connected st beh.connectBeh now
  if ec.1 = false then
    (.error (.writeError "Not connected and reconnection failed"), ec.2)
  else
    let st := ec.2
    match beh.call with
    | .errorResponse =>
      let msg := "Write error at address " ++ toString address
      (.error (.writeError msg), record_error st msg now)
    | .timeout =>
      (.error .timeout,
       { record_error st ("Write timeout at address " ++ toString address) now
         with connected := false })
    | .connLost msg =>
      (.error (.writeError ("Connection lost: " ++ msg)),
       { record_error st ("Connection lost: " ++ msg) now
         with connected := false })
    | .raises msg =>
      (.error (.writeError ("Write failed: " ++ msg)), record_error st msg now)
    | .ok =>
      let st := { st with last_success_time := some now }
      if verify then
        let expected_value := expected.getD value
        let rr := read_register st beh.verifyRead address now
        match rr.1 with
        | .ok readback =>
          if readback ≠ expected_value then
            (.error (.valueError address value expected_value readback),
             record_error rr.2
               (verifyMismatchMsg address value expected_value readback) now)
          else (.ok true, rr.2)
        | .error e => (.error e, rr.2)
      else (.ok true, st)

/-! ## Services (services.py) -/

/-- Python `unit_id or hub.unit_id`: `or` replaces both `None` and the
falsy `0`. -/
def pyOrUnit (u : Option Nat) (hubUnit : Nat) : Nat :=
  match u with
  | none => hubUnit
  | some v => if v = 0 then hubUnit else v

/-- Embeds the `WriteRegisterResult` dataclass of services.py. -/
structure WriteRegisterResult where
  register : Nat
  value : Nat
  verified : Bool
  readback : Option Nat
  error : Option String
  unit_id : Nat
  deriving DecidableEq

/-- Transport behaviour for one `async_handle_write_register` call: the
behaviour of the hub write (with its internal verification read) and of
the one extra readback read the service performs afterwards. -/
structure ServiceWriteBeh where
  hubWrite : WriteBeh
  extraRead : ReadBeh
  deriving DecidableEq

/-- Embeds `async_handle_write_register`: call `hub.write_register`; on
success with `verify` set, perform one extra `hub.read_register` to report
the actual readback. Any exception from either call — the verification
`ValueError` or any other — is converted into a result with
`verified := false`, `readback := none` and `error := str(ex)`; the
service itself never raises, which the embedding reflects by being a
total function returning a `WriteRegisterResult`. -/
def async_handle_write_register (st : HubState) (beh : ServiceWriteBeh)
    (register value : Nat) (unit_id : Option Nat) (verify : Bool)
    (expected : Option Nat) (now : Nat) : WriteRegisterResult × HubState :=
  let wr := write_register st beh.hubWrite register value verify expected now
  match wr.1 with
  | .ok _ =>
    if verify then
      let rr := read_register wr.2 beh.extraRead register now
      match rr.1 with
      | .ok rb =>
        ({ register := register, value := value, verified := true,
           readback := some rb, error := none,
           unit_id := pyOrUnit unit_id st.unit_id }, rr.2)
      | .error e =>
        ({ register := register, value := value, verified := false,
           readback := none, error := some (errString e),
           unit_id := pyOrUnit unit_id st.unit_id }, rr.2)
    else
      ({ register := register, value := value, verified := true,
         readback := none, error := none,
         unit_id := pyOrUnit unit_id st.unit_id }, wr.2)
  | .error e =>
    ({ register := register, value := value, verified := false,
       readback := none, error := some (errString e),
       unit_id := pyOrUnit unit_id st.unit_id }, wr.2)

/-- `MAX_SCAN_RANGE` from const.py. -/
def MAX_SCAN_RANGE : Nat := 100

/-- The `range_size = (end - start) // step + 1` computation of
`async_handle_scan_range`, with Python's floor division on integers. -/
def scanRangeSize (start end_ step : Nat) : Int :=
  Int.fdiv ((end_ : Int) - (start : Int)) (step : Int) + 1

/-- Python `range(start, stop, step)` for `step > 0`. -/
def pyRange (start stop step : Nat) : List Nat :=
  List.range' start ((stop - start + step - 1) / step) step

/-- Embeds the `ScanRangeResult` dataclass of services.py. -/
structure ScanRangeResult where
  start : Nat
  end_ : Nat
  step : Nat
  results : List (Nat × Nat)
  errors : List (Nat × String)
  unit_id : Nat
  deriving DecidableEq

/-- The `for address in range(start, end + 1, step)` loop of
`async_handle_scan_range`: each read's value goes into the results dict,
each read's exception is appended to the error list; no failure aborts
the loop. -/
def scanLoop (read : Nat → Except String Nat) :
    List Nat → List (Nat × Nat) → List (Nat × String) →
    List (Nat × Nat) × List (Nat × String)
  | [], results, errors => (results, errors)
  | a :: rest, results, errors =>
    match read a with
    | .ok v => scanLoop read rest (dictInsert results a v) errors
    | .error e => scanLoop read rest results (errors ++ [(a, e)])

/-- Embeds `async_handle_scan_range`: compute the range size and raise a
descriptive `ValueError` when it exceeds `MAX_SCAN_RANGE` before
performing any hub operation; otherwise read every address in
`range(start, end + 1, step)`. `read a` is the outcome of
`hub.read_register(a)` (`.error` carries `str(ex)`). The second component
is the trace of addresses on which `hub.read_register` was invoked, in
call order; the error branch performs no hub operation at all. -/
def async_handle_scan_range (read : Nat → Except String Nat)
    (start end_ step : Nat) (unit_id : Option Nat) (hubUnit : Nat) :
    Except String ScanRangeResult × List Nat :=
  let range_size := scanRangeSize start end_ step
  if range_size > (MAX_SCAN_RANGE : Int) then
    (.error ("Scan range too large: " ++ toString range_size ++
             " registers. Maximum is " ++ toString MAX_SCAN_RANGE ++ "."),
     [])
  else
    let addrs := pyRange start (end_ + 1) step
    let le := scanLoop read addrs [] []
    (.ok { start := start, end_ := end_, step := step,
           results := le.1, errors := le.2,
           unit_id := pyOrUnit unit_id hubUnit },
     addrs)

/-! ## Concrete states and behaviours used by witnesses -/

/-- A coordinator state with a populated cache, used by witnesses. -/
def coordStW : CoordState :=
  { data := [(1033, 5), (1034, 0)], available := true,
    last_update_time := some 2, consecutive_errors := 0,
    registers := [1033, 1034, 1041, 1168] }

/-- A read behaviour that fails on register 1034, used by witnesses. -/
def readFail1034 : Nat → Except String Nat :=
  fun r => if r = 1034 then .error "boom" else .ok 1

/-- A read behaviour that always succeeds, used by witnesses. -/
def readAllOk : Nat → Except String Nat :=
  fun r => .ok (r - 1000)

/-- A connected hub state, used by witnesses. -/
def hubStConn : HubState :=
  { unit_id := 1, reconnect_backoff := 5, hasClient := true,
    connected := true, connected_at := some 1, last_error := none,
    last_error_time := none, last_success_time := none, backoff_count := 0 }

/-- A disconnected hub state with a positive backoff count, used by
witnesses and the C2 counterexample. -/
def hubStBack2 : HubState :=
  { unit_id := 1, reconnect_backoff := 5, hasClient := false,
    connected := false, connected_at := none, last_error := none,
    last_error_time := none, last_success_time := none, backoff_count := 2 }

/-- A write behaviour whose write call succeeds and whose internal
verification readback returns 99, used by witnesses. -/
def writeBehRb99 : WriteBeh :=
  { connectBeh := ⟨.returns true, .ok⟩, call := .ok,
    verifyRead := ⟨⟨.returns true, .ok⟩, .ok 99⟩ }

/-- A service write behaviour whose hub write and internal verification
succeed (readback 7 = written value) but whose extra service readback
raises, used by witnesses. -/
def svcBehExtraFail : ServiceWriteBeh :=
  { hubWrite := { connectBeh := ⟨.returns true, .ok⟩, call := .ok,
                  verifyRead := ⟨⟨.returns true, .ok⟩, .ok 7⟩ },
    extraRead := ⟨⟨.returns true, .ok⟩, .raises "boom"⟩ }

/-- A scan read behaviour that fails exactly on address 2, used by
witnesses. -/
def scanRead2Fails : Nat → Except String Nat :=
  fun a => if a = 2 then .error "bad register" else .ok (a * 10)

/-! ## Helper lemmas -/

theorem dictLookup_dictInsert (d : List (Nat × Nat)) (k v a : Nat) :
    dictLookup (dictInsert d k v) a = if a = k then some v else dictLookup d a := by
  induction d with
  | nil =>
    simp [dictInsert, dictLookup, eq_comm]
  | cons p rest ih =>
    by_cases hpk : p.1 = k <;> by_cases hak : a = k <;>
      by_cases hap : p.1 = a <;>
      simp_all [dictInsert, dictLookup, eq_comm]

/-- If every tracked register reads successfully, the loop succeeds, its
trace is the whole register list, and every key of the produced dict is
characterised by lookup. -/
theorem readLoop_all_ok (read : Nat → Except String Nat) :
    ∀ (regs : List Nat) (acc : List (Nat × Nat)),
      (∀ r ∈ regs, (read r).toOption ≠ none) →
      ∃ nd, readLoop read regs acc = (.ok nd, regs) ∧
        ∀ a, dictLookup nd a =
          if a ∈ regs then (read a).toOption else dictLookup acc a := by
  intro regs
  induction regs with
  | nil =>
    intro acc _
    exact ⟨acc, rfl, fun a => by simp⟩
  | cons r rest ih =>
    intro acc hall
    have hr : (read r).toOption ≠ none := hall r (by simp)
    obtain ⟨v, hv⟩ : ∃ v, read r = .ok v := by
      cases hread : read r with
      | ok v => exact ⟨v, rfl⟩
      | error e => exact absurd (by simp [hread, Except.toOption]) hr
    obtain ⟨nd, hnd, hlook⟩ :=
      ih (dictInsert acc r v) (fun x hx => hall x (by simp [hx]))
    refine ⟨nd, ?_, ?_⟩
    · simp [readLoop, hv, hnd]
    · intro a
      rw [hlook a, dictLookup_dictInsert]
      by_cases hmem : a ∈ rest
      · simp [hmem]
      · by_cases har : a = r
        · simp [hmem, har, hv, Except.toOption]
        · simp [hmem, har]

/-- If some tracked register's read fails, the loop fails. -/
theorem readLoop_fails (read : Nat → Except String Nat) :
    ∀ (regs : List Nat) (acc : List (Nat × Nat)),
      (∃ r ∈ regs, (read r).toOption = none) →
      ∃ e tr, readLoop read regs acc = (.error e, tr) := by
  intro regs
  induction regs with
  | nil =>
    intro acc h
    obtain ⟨r, hr, _⟩ := h
    exact absurd hr (by simp)
  | cons r rest ih =>
    intro acc h
    cases hread : read r with
    | ok v =>
      obtain ⟨x, hx, hxfail⟩ := h
      have hxrest : x ∈ rest := by
        rcases List.mem_cons.mp hx with hxr | hxrest
        · subst hxr
          rw [hread] at hxfail
          simp [Except.toOption] at hxfail
        · exact hxrest
      obtain ⟨e, tr, htr⟩ := ih (dictInsert acc r v) ⟨x, hxrest, hxfail⟩
      exact ⟨e, r :: tr, by simp [readLoop, hread, htr]⟩
    | error e => exact ⟨e, [r], by simp [readLoop, hread]⟩

/-! ## Claim C1 -/

/-- C1: for every coordinator state and every hub behaviour in which the
hub is not connected or some tracked register's read raises,
`async_refresh` (a total function: it never re-raises) leaves the
register cache and `last_update_time` exactly as they were — no value
read earlier in the cycle is merged in — sets `available := false` and
increments `consecutive_errors` by exactly 1. -/
theorem refresh_failure_frame (st : CoordState) (connected : Bool)
    (read : Nat → Except String Nat) (now : Nat)
    (h : connected = false ∨ ∃ r ∈ st.registers, (read r).toOption = none) :
    (async_refresh st connected read now).1.data = st.data ∧
    (async_refresh st connected read now).1.last_update_time = st.last_update_time ∧
    (async_refresh st connected read now).1.available = false ∧
    (async_refresh st connected read now).1.consecutive_errors =
      st.consecutive_errors + 1 := by
  rcases h with hconn | hfail
  · simp [async_refresh, async_update_data, hconn]
  · cases hc : connected with
    | false => simp [async_refresh, async_update_data]
    | true =>
      obtain ⟨e, tr, htr⟩ := readLoop_fails read st.registers [] hfail
      simp [async_refresh, async_update_data, htr]

/-- Witness for C1 at a concrete state and behaviour. -/
theorem refresh_failure_frame_witness :
    (async_refresh coordStW true readFail1034 9).1.data = coordStW.data ∧
    (async_refresh coordStW true readFail1034 9).1.last_update_time =
      coordStW.last_update_time ∧
    (async_refresh coordStW true readFail1034 9).1.available = false ∧
    (async_refresh coordStW true readFail1034 9).1.consecutive_errors =
      coordStW.consecutive_errors + 1 :=
  refresh_failure_frame coordStW true readFail1034 9 (by decide)

/-! ## Claim C3 -/

/-- C3: for every coordinator state and every hub behaviour in which the
hub is connected and every tracked register's read succeeds, after
`async_refresh` the cache maps exactly the tracked addresses to their
freshly read values (lookups on all other addresses, including
no-longer-tracked ones cached earlier, give `none`), `available` is true,
`consecutive_errors` is 0 and `last_update_time` is the refresh time. -/
theorem refresh_success_state (st : CoordState)
    (read : Nat → Except String Nat) (now : Nat)
    (h : ∀ r ∈ st.registers, (read r).toOption ≠ none) :
    (∀ a, dictLookup (async_refresh st true read now).1.data a =
        if a ∈ st.registers then (read a).toOption else none) ∧
    (async_refresh st true read now).1.available = true ∧
    (async_refresh st true read now).1.consecutive_errors = 0 ∧
    (async_refresh st true read now).1.last_update_time = some now := by
  obtain ⟨nd, hnd, hlook⟩ := readLoop_all_ok read st.registers [] h
  refine ⟨?_, ?_, ?_, ?_⟩ <;>
    simp [async_refresh, async_update_data, hnd, hlook, dictLookup]

/-- Witness for C3 at a concrete state and behaviour: the fresh value is
installed, the stale key 1033 entry is overwritten, and a never-tracked
address stays absent. -/
theorem refresh_success_state_witness :
    dictLookup (async_refresh coordStW true readAllOk 9).1.data 1033 = some 33 ∧
    dictLookup (async_refresh coordStW true readAllOk 9).1.data 4242 = none ∧
    (async_refresh coordStW true readAllOk 9).1.available = true ∧
    (async_refresh coordStW true readAllOk 9).1.consecutive_errors = 0 ∧
    (async_refresh coordStW true readAllOk 9).1.last_update_time = some 9 := by
  obtain ⟨hlook, hav, herr, htime⟩ :=
    refresh_success_state coordStW readAllOk 9 (by decide)
  exact ⟨(hlook 1033).trans (by decide), (hlook 4242).trans (by decide),
         hav, herr, htime⟩

/-! ## Claim C9 -/

/-- C9: for every coordinator whose hub reports `is_connected` false at
the start of `async_refresh`, the refresh takes the failure branch —
`available` false, `consecutive_errors` incremented, cache and timestamp
unchanged — and the hub-operation trace is empty: no `hub.read_register`
call is made, hence the lazy-connect path inside it is never entered, and
the coordinator itself never calls `hub.connect`, so periodic polling
cannot restore a lost connection. -/
theorem refresh_disconnected_no_hub_ops (st : CoordState)
    (read : Nat → Except String Nat) (now : Nat) :
    async_refresh st false read now =
      ({ st with available := false,
                 consecutive_errors := st.consecutive_errors + 1 }, []) := by
  rfl

/-! ## Claim C7 -/

/-- C7: for every hub state and every transport behaviour, a `connect()`
call that returns true leaves `backoff_count = 0` and `is_connected`
true; a call that returns false leaves `is_connected` false and
`backoff_count` exactly one greater than before. -/
theorem connect_result_postcondition (st : HubState) (beh : ConnectBeh)
    (now : Nat) :
    ((connect st beh now).1 = true →
       (connect st beh now).2.backoff_count = 0 ∧
       (connect st beh now).2.is_connected = true) ∧
    ((connect st beh now).1 = false →
       (connect st beh now).2.is_connected = false ∧
       (connect st beh now).2.backoff_count = st.backoff_count + 1) := by
  obtain ⟨call, testRead⟩ := beh
  cases call with
  | returns b =>
    cases b with
    | false => simp [connect, record_error, HubState.is_connected]
    | true =>
      cases testRead <;> simp [connect, record_error, HubState.is_connected]
  | timeout => simp [connect, record_error, HubState.is_connected]
  | raises msg => simp [connect, record_error, HubState.is_connected]

/-- Witness for C7: a successful and a failed connect at concrete
inputs. -/
theorem connect_result_postcondition_witness :
    (connect hubStBack2 ⟨.returns true, .ok⟩ 4).2.backoff_count = 0 ∧
    (connect hubStBack2 ⟨.returns true, .ok⟩ 4).2.is_connected = true ∧
    (connect hubStBack2 ⟨.returns false, .ok⟩ 4).2.is_connected = false ∧
    (connect hubStBack2 ⟨.returns false, .ok⟩ 4).2.backoff_count =
      hubStBack2.backoff_count + 1 :=
  ⟨((connect_result_postcondition hubStBack2 ⟨.returns true, .ok⟩ 4).1 rfl).1,
   ((connect_result_postcondition hubStBack2 ⟨.returns true, .ok⟩ 4).1 rfl).2,
   ((connect_result_postcondition hubStBack2 ⟨.returns false, .ok⟩ 4).2 rfl).1,
   ((connect_result_postcondition hubStBack2 ⟨.returns false, .ok⟩ 4).2 rfl).2⟩

/-! ## Claim C8 -/

/-- C8: for every hub state, `reconnect()` applies a pre-connect delay of
`min(reconnect_backoff * 2^(backoff_count - 1), 60)` seconds when
`backoff_count > 0`, applies no delay at all when `backoff_count = 0`,
and then delegates to `connect()`. -/
theorem reconnect_delay_formula (st : HubState) (beh : ConnectBeh)
    (now : Nat) :
    (0 < st.backoff_count →
      (reconnect st beh now).1 =
        some (min (st.reconnect_backoff * 2 ^ (st.backoff_count - 1)) 60)) ∧
    (st.backoff_count = 0 → (reconnect st beh now).1 = none) ∧
    (reconnect st beh now).2 = connect st beh now := by
  refine ⟨fun h => ?_, fun h => ?_, rfl⟩
  · simp [reconnect, h]
  · simp [reconnect, h]

/-- Witness for C8: with backoff count 2 and base 5 the delay is
`min(5 * 2, 60) = 10`; with backoff count 0 there is no delay. -/
theorem reconnect_delay_formula_witness :
    (reconnect hubStBack2 ⟨.returns true, .ok⟩ 4).1 = some 10 ∧
    (reconnect hubStConn ⟨.returns true, .ok⟩ 4).1 = none :=
  ⟨((reconnect_delay_formula hubStBack2 ⟨.returns true, .ok⟩ 4).1
      (by decide)).trans (by decide),
   (reconnect_delay_formula hubStConn ⟨.returns true, .ok⟩ 4).2.1 rfl⟩

/-! ## Claim C2 (corrected) -/

/-- Counterexample to C2 as stated: with the transport-level connect
succeeding and the mandatory test read returning a Modbus error response
(`result.isError()` true), `connect()` does not behave as a connect
failure — it returns true, is_connected becomes true and the backoff
count resets to 0 (it was 2), where the claim demands returning false,
disconnected, and backoff 3. -/
theorem connect_errorResponse_succeeds :
    (connect hubStBack2 ⟨.returns true, .errorResponse⟩ 7).1 = true ∧
    (connect hubStBack2 ⟨.returns true, .errorResponse⟩ 7).2.is_connected
      = true ∧
    (connect hubStBack2 ⟨.returns true, .errorResponse⟩ 7).2.backoff_count
      = 0 :=
  ⟨rfl, rfl, rfl⟩

/-- C2 amended: for every hub whose transport-level connect succeeds but
whose mandatory test read raises an exception, `connect()` behaves
exactly as for a connect failure — is_connected false, backoff count
incremented by one, the error recorded, and false returned; a test read
that merely returns a Modbus error response is only logged, and
`connect()` succeeds. -/
theorem connect_testRead_exception_failure (st : HubState) (msg : String)
    (now : Nat) :
    (connect st ⟨.returns true, .raises msg⟩ now).1 = false ∧
    (connect st ⟨.returns true, .raises msg⟩ now).2.is_connected = false ∧
    (connect st ⟨.returns true, .raises msg⟩ now).2.backoff_count =
      st.backoff_count + 1 ∧
    (connect st ⟨.returns true, .raises msg⟩ now).2.last_error =
      some ("Test read failed: " ++ msg) ∧
    (connect st ⟨.returns true, .errorResponse⟩ now).1 = true := by
  refine ⟨rfl, ?_, rfl, rfl, rfl⟩
  simp [connect, record_error, HubState.is_connected]

/-! ## Claim C4 -/

/-- C4: for every connected hub whose write call succeeds and whose
internal verification readback returns `rb`, `write_register` with
`verify = true` returns true when `rb` equals the expected value
(defaulting to the written value), and raises the verification-mismatch
`ValueError` — a condition distinct from the `ModbusWriteError`
write-failure condition — carrying the address, the written value, the
expected value and the actual readback, when `rb` differs. -/
theorem write_register_verify_outcome (st : HubState) (beh : WriteBeh)
    (address value : Nat) (expected : Option Nat) (now : Nat) (rb : Nat)
    (hconn : st.is_connected = true)
    (hwrite : beh.call = .ok)
    (hread : beh.verifyRead.call = .ok rb) :
    (rb = expected.getD value →
      (write_register st beh address value true expected now).1 = .ok true) ∧
    (rb ≠ expected.getD value →
      (write_register st beh address value true expected now).1 =
        .error (.valueError address value (expected.getD value) rb) ∧
      ∀ m, (write_register st beh address value true expected now).1 ≠
        .error (.writeError m)) := by
  have hc : st.hasClient = true ∧ st.connected = true := by
    unfold HubState.is_connected at hconn
    by_cases h1 : st.hasClient = false
    · rw [if_pos h1] at hconn
      exact absurd hconn (by simp)
    · exact ⟨by simpa using h1, by rwa [if_neg h1] at hconn⟩
  constructor
  · intro heq
    simp [write_register, read_register, ensure_connected, hc.1, hc.2,
          hwrite, hread, heq]
  · intro hne
    constructor
    · simp [write_register, read_register, ensure_connected, hc.1, hc.2,
            hwrite, hread, hne]
    · intro m
      simp [write_register, read_register, ensure_connected, hc.1, hc.2,
            hwrite, hread, hne]

/-- Witness for C4, the spec's end-to-end scenario: write register 1041
value 2 with verify, readback 99 ≠ 2 raises the mismatch carrying
(1041, 2, 2, 99). -/
theorem write_register_verify_outcome_witness :
    (write_register hubStConn writeBehRb99 1041 2 true none 6).1 =
      .error (.valueError 1041 2 2 99) :=
  ((write_register_verify_outcome hubStConn writeBehRb99 1041 2 none 6 99
      rfl rfl rfl).2 (by decide)).1

/-! ## Scan-range lemmas -/

theorem scanLoop_errors (read : Nat → Except String Nat) :
    ∀ (addrs : List Nat) (rs : List (Nat × Nat)) (es : List (Nat × String)),
      (scanLoop read addrs rs es).2 =
        es ++ addrs.filterMap (fun a =>
          match read a with
          | .ok _ => none
          | .error e => some (a, e)) := by
  intro addrs
  induction addrs with
  | nil => intro rs es; simp [scanLoop]
  | cons a rest ih =>
    intro rs es
    cases h : read a with
    | ok v => simp [scanLoop, h, ih]
    | error e => simp [scanLoop, h, ih]

theorem scanLoop_lookup (read : Nat → Except String Nat) :
    ∀ (addrs : List Nat) (rs : List (Nat × Nat)) (es : List (Nat × String))
      (a : Nat),
      dictLookup (scanLoop read addrs rs es).1 a =
        if a ∈ addrs ∧ (read a).toOption ≠ none then (read a).toOption
        else dictLookup rs a := by
  intro addrs
  induction addrs with
  | nil => intro rs es a; simp [scanLoop]
  | cons x rest ih =>
    intro rs es a
    cases h : read x with
    | ok v =>
      rw [scanLoop, h, ih, dictLookup_dictInsert]
      by_cases hmem : a ∈ rest ∧ (read a).toOption ≠ none
      · simp [hmem, hmem.1]
      · by_cases hax : a = x
        · subst hax
          simp [h, Except.toOption] at hmem ⊢
        · have hcons : ¬ (a ∈ x :: rest ∧ (read a).toOption ≠ none) := by
            rintro ⟨hmem2, hsome⟩
            rcases List.mem_cons.mp hmem2 with h1 | h1
            · exact hax h1
            · exact hmem ⟨h1, hsome⟩
          rw [if_neg hmem, if_neg hax, if_neg hcons]
    | error e =>
      rw [scanLoop, h, ih]
      by_cases hax : a = x
      · subst hax
        simp [h, Except.toOption]
      · simp [List.mem_cons, hax]

theorem pyRange_length (start end_ step : Nat) (hstep : 0 < step)
    (hle : start ≤ end_) :
    (pyRange start (end_ + 1) step).length = (end_ - start) / step + 1 := by
  unfold pyRange
  rw [List.length_range']
  have h1 : end_ + 1 - start + step - 1 = (end_ - start) + step := by omega
  rw [h1, Nat.add_div_right _ hstep]

theorem scanRangeSize_eq (start end_ step : Nat) (hstep : 0 < step)
    (hle : start ≤ end_) :
    scanRangeSize start end_ step = ((end_ - start) / step + 1 : Nat) := by
  unfold scanRangeSize
  have h1 : (end_ : Int) - (start : Int) = ((end_ - start : Nat) : Int) := by
    omega
  rw [h1, Int.fdiv_eq_div (by positivity) (by positivity), ← Int.ofNat_div]
  push_cast
  ring

/-! ## Claim C5 -/

/-- C5: for every (start, end, step) with positive step, end ≥ start and
register count at most 100, and every hub read behaviour, the scan
attempts exactly `(end - start) / step + 1` addresses (the trace of
`hub.read_register` calls is the full Python range and has that length),
returns a result, and every attempted address appears in exactly one of
the results mapping or the per-address error list — a failing read never
stops the remaining reads. -/
theorem scan_range_partition (read : Nat → Except String Nat)
    (start end_ step : Nat) (unit_id : Option Nat) (hubUnit : Nat)
    (hstep : 0 < step) (hle : start ≤ end_)
    (hsize : (end_ - start) / step + 1 ≤ 100) :
    (async_handle_scan_range read start end_ step unit_id hubUnit).2.length =
      (end_ - start) / step + 1 ∧
    ∃ res,
      (async_handle_scan_range read start end_ step unit_id hubUnit).1 =
        .ok res ∧
      ∀ a ∈ (async_handle_scan_range read start end_ step unit_id hubUnit).2,
        ((dictLookup res.results a).isSome ∧ ¬ ∃ e, (a, e) ∈ res.errors) ∨
        (dictLookup res.results a = none ∧ ∃ e, (a, e) ∈ res.errors) := by
  have hnogt : ¬ scanRangeSize start end_ step > (MAX_SCAN_RANGE : Int) := by
    rw [scanRangeSize_eq start end_ step hstep hle]
    unfold MAX_SCAN_RANGE
    push_cast
    omega
  refine ⟨?_, ?_⟩
  · simp only [async_handle_scan_range, if_neg hnogt]
    exact pyRange_length start end_ step hstep hle
  · refine ⟨{ start := start, end_ := end_, step := step,
              results := (scanLoop read (pyRange start (end_ + 1) step) [] []).1,
              errors := (scanLoop read (pyRange start (end_ + 1) step) [] []).2,
              unit_id := pyOrUnit unit_id hubUnit },
            by simp only [async_handle_scan_range, if_neg hnogt], ?_⟩
    intro a ha
    simp only [async_handle_scan_range, if_neg hnogt] at ha ⊢
    rw [scanLoop_lookup, scanLoop_errors]
    cases hread : read a with
    | ok v =>
      left
      constructor
      · simp [ha, hread, Except.toOption]
      · rintro ⟨e, he⟩
        simp only [List.nil_append, List.mem_filterMap] at he
        obtain ⟨x, _, hx⟩ := he
        cases hrx : read x <;> rw [hrx] at hx <;> simp at hx
        obtain ⟨hxa, _⟩ := hx
        rw [hxa, hread] at hrx
        exact Except.noConfusion hrx
    | error e =>
      right
      constructor
      · simp [hread, Except.toOption, dictLookup]
      · refine ⟨e, ?_⟩
        simp only [List.nil_append, List.mem_filterMap]
        exact ⟨a, ha, by simp [hread]⟩

/-- Witness for C5: scanning addresses 1..3 with address 2 failing gives
a 3-address trace, address 1 in the results, and address 2 in the error
list but not the results. -/
theorem scan_range_partition_witness :
    (async_handle_scan_range scanRead2Fails 1 3 1 none 1).2.length = 3 ∧
    ∃ res,
      (async_handle_scan_range scanRead2Fails 1 3 1 none 1).1 = .ok res ∧
      ∀ a ∈ (async_handle_scan_range scanRead2Fails 1 3 1 none 1).2,
        ((dictLookup res.results a).isSome ∧ ¬ ∃ e, (a, e) ∈ res.errors) ∨
        (dictLookup res.results a = none ∧ ∃ e, (a, e) ∈ res.errors) :=
  scan_range_partition scanRead2Fails 1 3 1 none 1 (by decide) (by decide)
    (by decide)

/-! ## Claim C6 -/

/-- C6: for every (start, end, step) whose register count
`(end - start) // step + 1` (the code's computation, Python floor
division) exceeds 100, and every hub read behaviour, the scan fails with
the descriptive size error and the trace of hub operations is empty: no
read is issued before the failure and the hub is untouched (the result is
the same for every read behaviour). -/
theorem scan_range_too_large (read : Nat → Except String Nat)
    (start end_ step : Nat) (unit_id : Option Nat) (hubUnit : Nat)
    (hsize : (MAX_SCAN_RANGE : Int) < scanRangeSize start end_ step) :
    async_handle_scan_range read start end_ step unit_id hubUnit =
      (.error ("Scan range too large: " ++
               toString (scanRangeSize start end_ step) ++
               " registers. Maximum is " ++ toString MAX_SCAN_RANGE ++ "."),
       []) := by
  simp only [async_handle_scan_range, if_pos hsize]

/-- Witness for C6: a 200-register request fails with the descriptive
error and an empty hub-operation trace. -/
theorem scan_range_too_large_witness :
    async_handle_scan_range scanRead2Fails 1 200 1 none 1 =
      (.error ("Scan range too large: " ++
               toString (scanRangeSize 1 200 1) ++
               " registers. Maximum is " ++ toString MAX_SCAN_RANGE ++ "."),
       []) :=
  scan_range_too_large scanRead2Fails 1 200 1 none 1 (by decide)

/-! ## Claim C10 -/

/-- C10: for every hub state and transport behaviour, the write service
with `verify = true` reports `verified = true` only when the hub write
(with its internal verification) succeeded and the one additional
service readback read also succeeded; when that extra read raises after
a successful write-and-verify, the result has `verified = false`,
`readback = none` and a populated error. The service always returns a
result rather than raising, which the embedding reflects by being a
total function into `WriteRegisterResult`. -/
theorem write_service_verified_semantics (st : HubState)
    (beh : ServiceWriteBeh) (register value : Nat) (unit_id : Option Nat)
    (expected : Option Nat) (now : Nat) :
    ((async_handle_write_register st beh register value unit_id true
        expected now).1.verified = true →
      ∃ b st' rb,
        write_register st beh.hubWrite register value true expected now =
          (.ok b, st') ∧
        (read_register st' beh.extraRead register now).1 = .ok rb ∧
        (async_handle_write_register st beh register value unit_id true
          expected now).1.readback = some rb) ∧
    (∀ b st' e,
      write_register st beh.hubWrite register value true expected now =
        (.ok b, st') →
      (read_register st' beh.extraRead register now).1 = .error e →
      (async_handle_write_register st beh register value unit_id true
        expected now).1.verified = false ∧
      (async_handle_write_register st beh register value unit_id true
        expected now).1.readback = none ∧
      (async_handle_write_register st beh register value unit_id true
        expected now).1.error = some (errString e)) := by
  constructor
  · intro hver
    rcases hw : write_register st beh.hubWrite register value true
        expected now with ⟨wres, wst⟩
    cases wres with
    | error e =>
      rw [async_handle_write_register, hw] at hver
      simp at hver
    | ok b =>
      rcases hr : read_register wst beh.extraRead register now
          with ⟨rres, rst⟩
      cases rres with
      | error e =>
        rw [async_handle_write_register, hw] at hver
        simp only [hr] at hver
        simp at hver
      | ok rb =>
        refine ⟨b, wst, rb, rfl, by rw [hr], ?_⟩
        rw [async_handle_write_register, hw]
        simp [hr]
  · intro b st' e hw hr
    rw [async_handle_write_register, hw]
    rcases hrp : read_register st' beh.extraRead register now
        with ⟨rres, rst⟩
    rw [hrp] at hr
    cases rres with
    | ok rb => simp at hr
    | error e2 =>
      have he : e2 = e := by simpa using hr
      subst he
      simp [hrp]

/-- Witness for C10: hub write and internal verification succeed but the
extra service readback raises; the result reports `verified = false`,
no readback, and the read failure as its error. -/
theorem write_service_verified_semantics_witness :
    (async_handle_write_register hubStConn svcBehExtraFail 5 7 none true
      none 3).1.verified = false ∧
    (async_handle_write_register hubStConn svcBehExtraFail 5 7 none true
      none 3).1.readback = none ∧
    (async_handle_write_register hubStConn svcBehExtraFail 5 7 none true
      none 3).1.error = some "Read failed: boom" :=
  (write_service_verified_semantics hubStConn svcBehExtraFail 5 7 none
      none 3).2 true
    (write_register hubStConn svcBehExtraFail.hubWrite 5 7 true none 3).2
    (.readError "Read failed: boom") rfl rfl

end ACModbus
